import Mathlib

/-!
Shallow embedding of the pay/tax/recurrence calculation logic of the
payroll backend (`backend/app.py`), together with theorems settling the
specification claims about it.

Conventions:
* Python floats are modelled as rationals (`ℚ`); `round(x, 2)` is modelled
  by `round2`, round-half-to-even at two fractional digits, Python's
  documented rounding mode.
* `'YYYY-MM-DD'` date strings are modelled by the `Date` structure; SQL /
  Python string comparison of zero-padded date strings coincides with the
  lexicographic order `Date.ble`.
* A fallible date parse (`datetime.strptime` inside `try`) is modelled by
  an `Option Date` argument: `none` is an unparseable date string.
* JSON request values are modelled by `JVal`; an absent key is `none`.
-/

/-- A calendar date, the model of a `'YYYY-MM-DD'` string. -/
structure Date where
  year : ℕ
  month : ℕ
  day : ℕ
deriving DecidableEq, Repr

/-- Lexicographic order on dates; for valid zero-padded `'YYYY-MM-DD'`
strings this coincides with the string comparison used by the SQL query
and by Python `>` on the date strings. -/
def Date.ble (a b : Date) : Bool :=
  decide (a.year < b.year ∨ (a.year = b.year ∧
    (a.month < b.month ∨ (a.month = b.month ∧ a.day ≤ b.day))))

/-- Strict version of `Date.ble`. -/
def Date.blt (a b : Date) : Bool := !(Date.ble b a)

/-- Gregorian leap-year test, as in Python's `calendar`/`datetime`. -/
def isLeap (y : ℕ) : Bool := y % 4 == 0 && (y % 100 != 0 || y % 400 == 0)

/-- Number of days in a month of a given year. -/
def daysInMonth (y m : ℕ) : ℕ :=
  if m = 2 then (if isLeap y then 29 else 28)
  else if m = 4 ∨ m = 6 ∨ m = 9 ∨ m = 11 then 30
  else 31

/-- Days in all years strictly before year `y` (proleptic Gregorian),
matching Python's `date.toordinal` for January 1st. -/
def daysBeforeYear (y : ℕ) : ℕ :=
  365 * (y - 1) + (y - 1) / 4 - (y - 1) / 100 + (y - 1) / 400

/-- Days in year `y` strictly before month `m`. -/
def daysBeforeMonth (y m : ℕ) : ℕ :=
  let base := [0, 31, 59, 90, 120, 151, 181, 212, 243, 273, 304, 334].getD (m - 1) 0
  if 2 < m ∧ isLeap y then base + 1 else base

/-- Python's `date.toordinal`: day number with `0001-01-01 ↦ 1`. -/
def toOrdinal (d : Date) : ℕ :=
  daysBeforeYear d.year + daysBeforeMonth d.year d.month + d.day

/-- Python's `date.weekday()`: `0 = Monday, …, 5 = Saturday, 6 = Sunday`
(`0001-01-01` is a Monday). -/
def weekday (d : Date) : ℕ := (toOrdinal d + 6) % 7

/-- The day after `d` in the calendar. -/
def Date.next (d : Date) : Date :=
  if d.day < daysInMonth d.year d.month then ⟨d.year, d.month, d.day + 1⟩
  else if d.month < 12 then ⟨d.year, d.month + 1, 1⟩
  else ⟨d.year + 1, 1, 1⟩

/-- `d` shifted forward by `n` days; `addDays 7` models
`timedelta(weeks=1)`. -/
def addDays : ℕ → Date → Date
  | 0, d => d
  | n + 1, d => addDays n d.next

/-- `relativedelta(months=1)`: next calendar month, day clamped to the
length of the target month. -/
def addMonth (d : Date) : Date :=
  let y := if d.month = 12 then d.year + 1 else d.year
  let m := if d.month = 12 then 1 else d.month + 1
  ⟨y, m, min d.day (daysInMonth y m)⟩

/-- `relativedelta(years=1)`: next calendar year, day clamped (Feb 29 of a
leap year becomes Feb 28). -/
def addYear (d : Date) : Date :=
  ⟨d.year + 1, d.month, min d.day (daysInMonth (d.year + 1) d.month)⟩

/-- Round-half-to-even to an integer, Python's `round` on exact values. -/
def roundHalfEven (q : ℚ) : ℤ :=
  if q - ⌊q⌋ < 1/2 then ⌊q⌋
  else if 1/2 < q - ⌊q⌋ then ⌊q⌋ + 1
  else if ⌊q⌋ % 2 = 0 then ⌊q⌋ else ⌊q⌋ + 1

/-- Python's `round(x, 2)`. -/
def round2 (q : ℚ) : ℚ := (roundHalfEven (q * 100) : ℚ) / 100

/-! ## Tax calculation (`calculate_tax`, app.py 1478–1524) -/

/-- The bracket computation of `calculate_tax`: the value bound to `tax`
after the `if`/`elif` chain (app.py 1495–1506). -/
def income_tax (inc : ℚ) : ℚ :=
  if inc ≤ 18200 then 0
  else if inc ≤ 45000 then (inc - 18200) * (19/100)
  else if inc ≤ 120000 then 5092 + (inc - 45000) * (325/1000)
  else if inc ≤ 180000 then 29467 + (inc - 120000) * (37/100)
  else 51667 + (inc - 180000) * (45/100)

/-- The Medicare levy of `calculate_tax` (app.py 1509). -/
def medicare_levy (inc : ℚ) : ℚ :=
  if 23226 < inc then inc * (2/100) else 0

/-- The JSON body returned by `calculate_tax` (app.py 1515–1524). -/
structure TaxResult where
  annual_income : ℚ
  income_tax : ℚ
  medicare_levy : ℚ
  total_tax : ℚ
  net_income : ℚ
  effective_tax_rate : ℚ
  monthly_net : ℚ
  fortnightly_net : ℚ
deriving DecidableEq, Repr

/-- The successful-path computation of `calculate_tax` (app.py 1511–1524). -/
def tax_result (inc : ℚ) : TaxResult :=
  let tax := income_tax inc
  let levy := medicare_levy inc
  let total_tax := tax + levy
  let net_income := inc - total_tax
  let effective_tax_rate := if 0 < inc then total_tax / inc * 100 else 0
  { annual_income := inc
    income_tax := round2 tax
    medicare_levy := round2 levy
    total_tax := round2 total_tax
    net_income := round2 net_income
    effective_tax_rate := round2 effective_tax_rate
    monthly_net := round2 (net_income / 12)
    fortnightly_net := round2 (net_income / 26) }

/-- The `annual_income` request value as seen by `calculate_tax`:
`none` = key absent, `some none` = present but `float()` raises,
`some (some q)` = converts to the number `q`. -/
def TaxInput : Type := Option (Option ℚ)

/-- `calculate_tax` (app.py 1483–1524): input validation followed by the
computation; `.error` models the 400 responses. -/
def calculate_tax (inp : TaxInput) : Except String TaxResult :=
  match inp with
  | none => .error "annual_income is required"
  | some none => .error "annual_income must be a valid number"
  | some (some inc) =>
    if inc < 0 then .error "annual_income must be non-negative"
    else .ok (tax_result inc)

/-! ## Shift pay calculation (`calculate_shift_pay`, app.py 465–489) -/

/-- A row of the `workplaces` table: the rate configuration fields
(schema at app.py 66–73); `workplace_data` passed to the calculator is a
dict of such values. -/
structure Workplace where
  base_rate : ℚ
  saturday_multiplier : ℚ
  sunday_multiplier : ℚ
  public_holiday_multiplier : ℚ
  overtime_multiplier : ℚ
  overtime_threshold : ℚ
deriving DecidableEq, Repr

/-- `calculate_shift_pay(base_rate, hours, date_str, workplace_data)`.
`parsed_date = none` models an unparseable `date_str`: `strptime` raises,
the bare `except` catches, and the fallback `base_rate * hours` is
returned. Only the Saturday and Sunday multipliers are consulted; with no
workplace data they default to 1.5 and 2.0. -/
def calculate_shift_pay (base_rate hours : ℚ) (parsed_date : Option Date)
    (workplace_data : Option Workplace) : ℚ :=
  match parsed_date with
  | none => base_rate * hours
  | some d =>
    let saturday_mult := match workplace_data with
      | some w => w.saturday_multiplier
      | none => 3/2
    let sunday_mult := match workplace_data with
      | some w => w.sunday_multiplier
      | none => 2
    let rate :=
      if weekday d = 5 then base_rate * saturday_mult
      else if weekday d = 6 then base_rate * sunday_mult
      else base_rate
    rate * hours

/-- The day multiplier that `calculate_shift_pay` actually applies on a
parsed date: Saturday and Sunday only, never a public-holiday rate. -/
def satSunMultiplier (w : Workplace) (d : Date) : ℚ :=
  if weekday d = 5 then w.saturday_multiplier
  else if weekday d = 6 then w.sunday_multiplier
  else 1

/-- Spec §3 `RateConfig` (spec-side type, for comparison with the code). -/
structure RateConfig where
  baseRate : ℚ
  saturdayMultiplier : ℚ
  sundayMultiplier : ℚ
  publicHolidayMultiplier : ℚ
  overtimeMultiplier : ℚ
  overtimeThresholdHours : ℚ

/-- Spec §4.1 step 1, written from the spec's words for comparison with
the code: classification label and day multiplier, `public_holiday`
taking precedence over the weekend rates. -/
def spec_classify (cfg : RateConfig) (holidays : List Date) (d : Date) :
    String × ℚ :=
  if d ∈ holidays then ("public_holiday", cfg.publicHolidayMultiplier)
  else if weekday d = 5 then ("weekend", cfg.saturdayMultiplier)
  else if weekday d = 6 then ("weekend", cfg.sundayMultiplier)
  else ("weekday", 1)

/-- Spec §4.1 steps 2–3, written from the spec's words for comparison
with the code: regular/overtime split and the rounded result. -/
def spec_shiftPay (cfg : RateConfig) (holidays : List Date) (d : Date)
    (hours : ℚ) : String × ℚ :=
  let c := spec_classify cfg holidays d
  if hours ≤ cfg.overtimeThresholdHours then
    (c.1, round2 (hours * cfg.baseRate * c.2))
  else
    (c.1 ++ "_overtime",
     round2 (cfg.overtimeThresholdHours * cfg.baseRate * c.2 +
       (hours - cfg.overtimeThresholdHours) * cfg.baseRate *
         cfg.overtimeMultiplier * c.2))

/-- The spec's default rate configuration (§3) with baseRate 20. -/
def stdConfig : RateConfig :=
  ⟨20, 3/2, 2, 5/2, 3/2, 8⟩

/-- A workplace row carrying the schema's default multipliers
(1.5 / 2.0 / 2.5 / 1.5 / 8.0) and base rate 20. -/
def stdWorkplace : Workplace :=
  ⟨20, 3/2, 2, 5/2, 3/2, 8⟩

/-! ## Shift input validation (`validate_shift_data`, app.py 410–431) -/

/-- A JSON value in a request body (the shapes the validator inspects). -/
inductive JVal where
  | jnull : JVal
  | jnum : ℚ → JVal
  | jstr : String → JVal
deriving DecidableEq, Repr

/-- Python truthiness of a `JVal` (`not data['date']`). -/
def JVal.truthy : JVal → Bool
  | .jnull => false
  | .jnum q => q ≠ 0
  | .jstr s => s ≠ ""

/-- `isinstance(v, (int, float))` for a `JVal`. -/
def JVal.isNumber : JVal → Bool
  | .jnum _ => true
  | _ => false

/-- The fields of a shift request body that `validate_shift_data` reads;
`none` models an absent key. -/
structure ShiftData where
  date : Option JVal
  hours : Option JVal
  total_pay : Option JVal
deriving DecidableEq, Repr

/-- `validate_shift_data(data)` (app.py 410–431): the list of error
strings, in order of the checks. Note that the date field is only checked
for presence and truthiness, never parsed. -/
def validate_shift_data (data : ShiftData) : List String :=
  (match data.date with
   | none => ["Date is required"]
   | some v => if v.truthy then [] else ["Date is required"]) ++
  (match data.hours with
   | none => ["Hours is required"]
   | some v =>
     if !v.isNumber then ["Hours must be a number"]
     else match v with
       | .jnum q => if q ≤ 0 ∨ 24 < q then ["Hours must be between 0 and 24"] else []
       | _ => []) ++
  (match data.total_pay with
   | none => ["Total pay is required"]
   | some v =>
     if !v.isNumber then ["Total pay must be a number"]
     else match v with
       | .jnum q => if q < 0 then ["Total pay cannot be negative"] else []
       | _ => [])

/-! ## Recurring expense rollover (`process_recurring_expenses`,
app.py 1409–1474) -/

/-- The columns of a recurring expense row fetched by the rollover query
(app.py 1421–1426), plus the `is_recurring` flag the query filters on. -/
structure RecExp where
  id : ℕ
  category : String
  amount : ℚ
  recurrence_type : String
  next_occurrence : Date
  recurrence_end_date : Option Date
  notes : String
  is_recurring : Bool
deriving DecidableEq, Repr

/-- A materialized expense row inserted by the rollover pass
(app.py 1437–1440). -/
structure Emitted where
  category : String
  amount : ℚ
  due_date : Date
  is_recurring : Bool
  notes : String
deriving DecidableEq, Repr

/-- The row inserted for one due recurring expense: dated at its
`next_occurrence`, not itself recurring. -/
def mkEmission (r : RecExp) : Emitted :=
  ⟨r.category, r.amount, r.next_occurrence, false,
   "Auto-generated from recurring expense"⟩

/-- The next-occurrence computation (app.py 1444–1453): `none` when
`recurrence_type` is not one of the three known kinds, in which case the
row is not updated. -/
def advance (recurrence_type : String) (d : Date) : Option Date :=
  if recurrence_type = "weekly" then some (addDays 7 d)
  else if recurrence_type = "monthly" then some (addMonth d)
  else if recurrence_type = "yearly" then some (addYear d)
  else none

/-- The treatment of one recurring expense row in a rollover pass:
selection by the SQL `WHERE is_recurring AND next_occurrence <= today`,
the end-date skip, the insert of the materialized instance, and the
conditional update of `next_occurrence`. Returns the inserted rows and
the row as left in the table. -/
def stepRecord (today : Date) (r : RecExp) : List Emitted × RecExp :=
  if r.is_recurring && r.next_occurrence.ble today then
    let skip := match r.recurrence_end_date with
      | some e => e.blt r.next_occurrence
      | none => false
    if skip then ([], r)
    else
      ([mkEmission r],
       match advance r.recurrence_type r.next_occurrence with
       | some d => { r with next_occurrence := d }
       | none => r)
  else ([], r)

/-- A full rollover pass over the user's recurring expense rows: each row
is processed once with the value it had when fetched. -/
def processRecurring (today : Date) : List RecExp → List Emitted × List RecExp
  | [] => ([], [])
  | r :: rest =>
    let p := stepRecord today r
    let q := processRecurring today rest
    (p.1 ++ q.1, p.2 :: q.2)

/-! ## Claims about the tax calculation -/

/-- C5: for every annualIncome ≥ 0 the income tax follows the progressive
bracket schedule (0 up to 18200; 19% of the excess up to 45000;
5092 + 32.5% of the excess up to 120000; 29467 + 37% of the excess up to
180000; 51667 + 45% of the excess above that), and income 50000 yields
incomeTax 6717.00, totalTax 7717.00, netIncome 42283.00. -/
theorem C5_progressive_brackets (inc : ℚ) (h0 : 0 ≤ inc) :
    (inc ≤ 18200 → income_tax inc = 0) ∧
    (18200 < inc → inc ≤ 45000 → income_tax inc = (inc - 18200) * (19/100)) ∧
    (45000 < inc → inc ≤ 120000 →
      income_tax inc = 5092 + (inc - 45000) * (325/1000)) ∧
    (120000 < inc → inc ≤ 180000 →
      income_tax inc = 29467 + (inc - 120000) * (37/100)) ∧
    (180000 < inc → income_tax inc = 51667 + (inc - 180000) * (45/100)) ∧
    (tax_result 50000).income_tax = 6717 ∧
    (tax_result 50000).total_tax = 7717 ∧
    (tax_result 50000).net_income = 42283 := by
  refine ⟨fun h1 => ?_, fun h1 h2 => ?_, fun h1 h2 => ?_, fun h1 h2 => ?_,
    fun h1 => ?_, ?_, ?_, ?_⟩
  · unfold income_tax; split_ifs <;> linarith
  · unfold income_tax; split_ifs <;> linarith
  · unfold income_tax; split_ifs <;> linarith
  · unfold income_tax; split_ifs <;> linarith
  · unfold income_tax; split_ifs <;> linarith
  · norm_num [tax_result, income_tax, medicare_levy, round2, roundHalfEven]
  · norm_num [tax_result, income_tax, medicare_levy, round2, roundHalfEven]
  · norm_num [tax_result, income_tax, medicare_levy, round2, roundHalfEven]

/-- Witness for C5 at annualIncome = 50000. -/
theorem C5_witness :
    (0 : ℚ) ≤ 50000 ∧ (tax_result 50000).income_tax = 6717 ∧
      (tax_result 50000).total_tax = 7717 ∧ (tax_result 50000).net_income = 42283 :=
  ⟨by norm_num, (C5_progressive_brackets 50000 (by norm_num)).2.2.2.2.2⟩

/-- C6: for every annualIncome ≥ 0 the levy is 2% of income when income
exceeds 23226 and 0 otherwise, and income 10000 yields incomeTax 0,
levy 0 and netIncome 10000.00. -/
theorem C6_levy_threshold (inc : ℚ) (h0 : 0 ≤ inc) :
    (23226 < inc → medicare_levy inc = inc * (2/100)) ∧
    (inc ≤ 23226 → medicare_levy inc = 0) ∧
    (tax_result 10000).income_tax = 0 ∧
    (tax_result 10000).medicare_levy = 0 ∧
    (tax_result 10000).net_income = 10000 := by
  refine ⟨fun h1 => ?_, fun h1 => ?_, ?_, ?_, ?_⟩
  · unfold medicare_levy; split_ifs <;> linarith
  · unfold medicare_levy; split_ifs <;> linarith
  · norm_num [tax_result, income_tax, medicare_levy, round2, roundHalfEven]
  · norm_num [tax_result, income_tax, medicare_levy, round2, roundHalfEven]
  · norm_num [tax_result, income_tax, medicare_levy, round2, roundHalfEven]

/-- Witness for C6 at annualIncome = 10000. -/
theorem C6_witness :
    (0 : ℚ) ≤ 10000 ∧ medicare_levy 10000 = 0 ∧
      (tax_result 10000).net_income = 10000 :=
  ⟨by norm_num, (C6_levy_threshold 10000 (by norm_num)).2.1 (by norm_num),
    (C6_levy_threshold 10000 (by norm_num)).2.2.2.2⟩

/-- C7: for every annualIncome ≥ 0 the tax output carries
totalTax = incomeTax + levy, netIncome = income − totalTax,
effectiveRate = totalTax/income×100 (0 when income = 0), netIncome/12 and
netIncome/26, each rounded to two decimal places. -/
theorem C7_tax_outputs (inc : ℚ) (h0 : 0 ≤ inc) :
    (tax_result inc).income_tax = round2 (income_tax inc) ∧
    (tax_result inc).medicare_levy = round2 (medicare_levy inc) ∧
    (tax_result inc).total_tax = round2 (income_tax inc + medicare_levy inc) ∧
    (tax_result inc).net_income =
      round2 (inc - (income_tax inc + medicare_levy inc)) ∧
    (tax_result inc).effective_tax_rate =
      round2 (if inc = 0 then 0
        else (income_tax inc + medicare_levy inc) / inc * 100) ∧
    (tax_result inc).monthly_net =
      round2 ((inc - (income_tax inc + medicare_levy inc)) / 12) ∧
    (tax_result inc).fortnightly_net =
      round2 ((inc - (income_tax inc + medicare_levy inc)) / 26) := by
  refine ⟨rfl, rfl, rfl, rfl, ?_, rfl, rfl⟩
  rcases eq_or_lt_of_le h0 with h | h
  · simp [tax_result, ← h]
  · simp [tax_result, h, ne_of_gt h]

/-- Witness for C7 at annualIncome = 0 (the special effective-rate case). -/
theorem C7_witness :
    (0 : ℚ) ≤ 0 ∧ (tax_result 0).effective_tax_rate =
      round2 (if (0 : ℚ) = 0 then 0
        else (income_tax 0 + medicare_levy 0) / 0 * 100) :=
  ⟨le_refl 0, (C7_tax_outputs 0 (le_refl 0)).2.2.2.2.1⟩

/-- C9: the tax calculation rejects a negative or non-numeric
annual_income with an error and succeeds on every numeric
annual_income ≥ 0. -/
theorem C9_tax_validation :
    (∀ q : ℚ, q < 0 → calculate_tax (some (some q)) =
      .error "annual_income must be non-negative") ∧
    calculate_tax (some none) = .error "annual_income must be a valid number" ∧
    (∀ q : ℚ, 0 ≤ q → calculate_tax (some (some q)) = .ok (tax_result q)) := by
  refine ⟨fun q hq => ?_, rfl, fun q hq => ?_⟩
  · simp only [calculate_tax, if_pos hq]
  · simp only [calculate_tax, if_neg (not_lt.mpr hq)]

/-- Witness for C9 at annual_income = −5 and annual_income = 50000. -/
theorem C9_witness :
    calculate_tax (some (some (-5))) =
      .error "annual_income must be non-negative" ∧
    calculate_tax (some (some 50000)) = .ok (tax_result 50000) :=
  ⟨C9_tax_validation.1 (-5) (by norm_num),
   C9_tax_validation.2.2 50000 (by norm_num)⟩

/-! ## Claims about the shift pay calculation -/

/-- C1 counterexample: 2025-12-25 (a Thursday) placed in the public
holiday set. The spec-side calculation classifies it `public_holiday`
and pays 8 × 20 × 2.5 = 400; the code ignores the holiday set (and its
configured 2.5 multiplier) and returns the bare number 160 with no
classification label, so the claimed classification does not happen. -/
theorem C1_counterexample :
    spec_shiftPay stdConfig [⟨2025, 12, 25⟩] ⟨2025, 12, 25⟩ 8 =
      ("public_holiday", 400) ∧
    calculate_shift_pay stdWorkplace.base_rate 8 (some ⟨2025, 12, 25⟩)
      (some stdWorkplace) = 160 ∧
    (160 : ℚ) ≠ 400 := by
  have hw : weekday ⟨2025, 12, 25⟩ = 3 := by decide
  refine ⟨?_, ?_, by norm_num⟩
  · simp only [spec_shiftPay, spec_classify, stdConfig, List.mem_singleton]
    norm_num [round2, roundHalfEven]
  · simp only [calculate_shift_pay, stdWorkplace, hw]
    norm_num

/-- C1 amended: the shift pay calculation performs no public-holiday
classification and returns no label; on a parsed date it pays
baseRate × hours scaled by saturdayMultiplier on a Saturday,
sundayMultiplier on a Sunday, and 1 on all other days. -/
theorem C1_amended_sat_sun_only (base_rate hours : ℚ) (w : Workplace)
    (d : Date) :
    calculate_shift_pay base_rate hours (some d) (some w) =
      base_rate * satSunMultiplier w d * hours := by
  simp only [calculate_shift_pay, satSunMultiplier]
  split_ifs <;> ring

/-- C2 counterexample: the spec's own worked example (baseRate 20, a
public-holiday date, 10 hours, threshold 8) demands 550.00 with an
`_overtime` label; the code has no overtime logic and returns 200. -/
theorem C2_counterexample :
    spec_shiftPay stdConfig [⟨2026, 1, 1⟩] ⟨2026, 1, 1⟩ 10 =
      ("public_holiday_overtime", 550) ∧
    calculate_shift_pay stdWorkplace.base_rate 10 (some ⟨2026, 1, 1⟩)
      (some stdWorkplace) = 200 ∧
    (200 : ℚ) ≠ 550 := by
  have hw : weekday ⟨2026, 1, 1⟩ = 3 := by decide
  refine ⟨?_, ?_, by norm_num⟩
  · simp only [spec_shiftPay, spec_classify, stdConfig, List.mem_singleton]
    norm_num [round2, roundHalfEven]
    rfl
  · simp only [calculate_shift_pay, stdWorkplace, hw]
    norm_num

/-- C2 amended: hours beyond the overtime threshold are paid at the same
rate as regular hours — the pay is always hours × baseRate × day
multiplier, with no overtime component and no `_overtime` suffix. -/
theorem C2_amended_no_overtime (hours : ℚ) (w : Workplace) (d : Date)
    (hover : w.overtime_threshold < hours) :
    calculate_shift_pay w.base_rate hours (some d) (some w) =
      hours * w.base_rate * satSunMultiplier w d := by
  simp only [calculate_shift_pay, satSunMultiplier]
  split_ifs <;> ring

/-- Witness for the amended C2: 10 hours against threshold 8 on
2026-01-01 pay 10 × 20 × 1 = 200. -/
theorem C2_amended_witness :
    stdWorkplace.overtime_threshold < 10 ∧
    calculate_shift_pay stdWorkplace.base_rate 10 (some ⟨2026, 1, 1⟩)
      (some stdWorkplace) =
      10 * stdWorkplace.base_rate * satSunMultiplier stdWorkplace ⟨2026, 1, 1⟩ :=
  ⟨by norm_num [stdWorkplace],
   C2_amended_no_overtime 10 stdWorkplace ⟨2026, 1, 1⟩
     (by norm_num [stdWorkplace])⟩

/-! ## Claims about shift input validation -/

/-- C8 counterexample: a request whose date string is not a parseable
calendar date passes validation with no errors, and the pay calculation
then falls back to baseRate × hours instead of failing — the claimed
InvalidInput rejection of unparseable dates does not exist. -/
theorem C8_counterexample :
    validate_shift_data
      ⟨some (.jstr "not-a-date"), some (.jnum 8), some (.jnum 160)⟩ = [] ∧
    calculate_shift_pay 20 8 none (some stdWorkplace) = 160 := by
  constructor
  · simp only [validate_shift_data, JVal.truthy, JVal.isNumber]
    norm_num
    decide
  · norm_num [calculate_shift_pay]

/-- C8 amended: out-of-range hours are rejected by validation before any
calculation, but an unparseable date string is not rejected — validation
only requires the date field to be present and non-empty, and the pay
calculation silently falls back to baseRate × hours when the date fails
to parse. -/
theorem C8_amended_hours_only (data : ShiftData) (q : ℚ)
    (hh : data.hours = some (.jnum q)) (hrange : q ≤ 0 ∨ 24 < q) :
    "Hours must be between 0 and 24" ∈ validate_shift_data data ∧
    ∀ base_rate hours : ℚ, ∀ w : Option Workplace,
      calculate_shift_pay base_rate hours none w = base_rate * hours := by
  constructor
  · simp only [validate_shift_data, hh, JVal.isNumber, Bool.not_true,
      Bool.false_eq_true, if_false, if_pos hrange, List.mem_append,
      List.mem_singleton]
    tauto
  · intro base_rate hours w
    rfl

/-- Witness for the amended C8: 25 hours is rejected while the fallback
calculation succeeds. -/
theorem C8_amended_witness :
    "Hours must be between 0 and 24" ∈ validate_shift_data
      ⟨some (.jstr "2026-01-01"), some (.jnum 25), some (.jnum 0)⟩ ∧
    calculate_shift_pay 20 3 none none = 20 * 3 := by
  have h := C8_amended_hours_only
    ⟨some (.jstr "2026-01-01"), some (.jnum 25), some (.jnum 0)⟩ 25 rfl
    (Or.inr (by norm_num))
  exact ⟨h.1, h.2 20 3 none⟩

/-! ## Claims about the recurring expense rollover -/

theorem Date.ble_trans {a b c : Date} (h1 : a.ble b = true)
    (h2 : b.ble c = true) : a.ble c = true := by
  simp only [Date.ble, decide_eq_true_eq] at *
  omega

theorem Date.ble_eq_false_of_blt {a b : Date} (h : a.blt b = true) :
    Date.ble b a = false := by
  cases hb : Date.ble b a
  · rfl
  · simp [Date.blt, hb] at h

/-- C3: in a rollover pass, a recurring record due today (nextOccurrence
≤ today) that is not past its end date is materialized exactly once as a
non-recurring instance dated nextOccurrence, and its nextOccurrence is
advanced by one week, one calendar month or one calendar year according
to its recurrence type and persisted; a record past its end date is
skipped with nextOccurrence unchanged. -/
theorem C3_rollover_due_record (today : Date) (r : RecExp)
    (hrec : r.is_recurring = true)
    (hdue : r.next_occurrence.ble today = true) :
    (∀ rs : List RecExp, processRecurring today rs =
      ((rs.map fun x => (stepRecord today x).1).join,
       rs.map fun x => (stepRecord today x).2)) ∧
    ((r.recurrence_end_date = none ∨
        ∃ e, r.recurrence_end_date = some e ∧ r.next_occurrence.ble e = true) →
      (mkEmission r).due_date = r.next_occurrence ∧
      (mkEmission r).is_recurring = false ∧
      (r.recurrence_type = "weekly" → stepRecord today r =
        ([mkEmission r], { r with next_occurrence := addDays 7 r.next_occurrence })) ∧
      (r.recurrence_type = "monthly" → stepRecord today r =
        ([mkEmission r], { r with next_occurrence := addMonth r.next_occurrence })) ∧
      (r.recurrence_type = "yearly" → stepRecord today r =
        ([mkEmission r], { r with next_occurrence := addYear r.next_occurrence }))) ∧
    (∀ e, r.recurrence_end_date = some e → e.blt r.next_occurrence = true →
      stepRecord today r = ([], r)) := by
  refine ⟨fun rs => ?_, ?_, ?_⟩
  · induction rs with
    | nil => rfl
    | cons a t ih => simp [processRecurring, ih]
  · intro hend
    rcases hend with h | ⟨e, he, hle⟩
    · refine ⟨rfl, rfl, fun ht => ?_, fun ht => ?_, fun ht => ?_⟩ <;>
        simp [stepRecord, hrec, hdue, h, advance, ht]
    · have hbe : Date.blt e r.next_occurrence = false := by
        simp [Date.blt, hle]
      refine ⟨rfl, rfl, fun ht => ?_, fun ht => ?_, fun ht => ?_⟩ <;>
        simp [stepRecord, hrec, hdue, he, hbe, advance, ht]
  · intro e he hlt
    simp [stepRecord, hrec, hdue, he, hlt]

/-- Witness for C3: a monthly expense with nextOccurrence 2026-01-15 and
today 2026-02-20 is emitted once dated 2026-01-15 and advanced to
2026-02-15. -/
def rcMonthly : RecExp :=
  ⟨1, "rent", 500, "monthly", ⟨2026, 1, 15⟩, none, "", true⟩

theorem C3_witness :
    processRecurring ⟨2026, 2, 20⟩ [rcMonthly] =
      ([mkEmission rcMonthly],
       [{ rcMonthly with next_occurrence := ⟨2026, 2, 15⟩ }]) := by
  have hc := C3_rollover_due_record ⟨2026, 2, 20⟩ rcMonthly rfl (by decide)
  have h := (hc.2.1 (Or.inl rfl)).2.2.2.1 rfl
  rw [hc.1 [rcMonthly]]
  rw [List.map_singleton, List.map_singleton, h]
  simp [rcMonthly, addMonth, daysInMonth, isLeap]

/-- C4 counterexample: a weekly record with nextOccurrence 2026-01-01 and
today 2026-02-20 is more than one period behind; the first pass advances
it only to 2026-01-08, which is still ≤ today, so a second pass on the
same day emits the record again — two emissions in total. -/
def rcLagging : RecExp :=
  ⟨2, "gym", 30, "weekly", ⟨2026, 1, 1⟩, none, "", true⟩

theorem C4_counterexample :
    ¬ (((stepRecord ⟨2026, 2, 20⟩ rcLagging).1 ++
        (stepRecord ⟨2026, 2, 20⟩ (stepRecord ⟨2026, 2, 20⟩ rcLagging).2).1).length ≤ 1) := by
  simp [stepRecord, rcLagging, advance, addDays, Date.next, daysInMonth,
    isLeap, Date.ble, mkEmission]

/-- C4 amended: two rollover passes on the same day emit a record at most
once in total provided the record is at most one period behind, i.e. its
advanced nextOccurrence lands strictly after today; a record lagging more
than one period is re-emitted by the second pass. -/
theorem C4_same_day_no_double_emit (today : Date) (r : RecExp) (d : Date)
    (hadv : advance r.recurrence_type r.next_occurrence = some d)
    (hgt : today.blt d = true) :
    ((stepRecord today r).1 ++
      (stepRecord today (stepRecord today r).2).1).length ≤ 1 := by
  have hdle : Date.ble d today = false := Date.ble_eq_false_of_blt hgt
  by_cases hsel : (r.is_recurring && r.next_occurrence.ble today) = true
  · rcases hre : r.recurrence_end_date with _ | e
    · simp [stepRecord, hsel, hre, hadv, hdle]
    · by_cases hskip : Date.blt e r.next_occurrence = true
      · simp [stepRecord, hsel, hre, hskip]
      · simp [stepRecord, hsel, hre, hskip, hadv, hdle]
  · simp [stepRecord, hsel]

/-- Witness for the amended C4: a monthly record one period current
(nextOccurrence 2026-02-15, today 2026-02-20, advanced to 2026-03-15)
is emitted at most once over two same-day passes. -/
def rcCurrent : RecExp :=
  ⟨3, "sub", 10, "monthly", ⟨2026, 2, 15⟩, none, "", true⟩

theorem C4_witness :
    ((stepRecord ⟨2026, 2, 20⟩ rcCurrent).1 ++
      (stepRecord ⟨2026, 2, 20⟩ (stepRecord ⟨2026, 2, 20⟩ rcCurrent).2).1).length ≤ 1 :=
  C4_same_day_no_double_emit ⟨2026, 2, 20⟩ rcCurrent ⟨2026, 3, 15⟩
    (by simp [rcCurrent, advance, addMonth, daysInMonth, isLeap])
    (by decide)

/-- C10: a due recurring record whose recurrence type is none of weekly,
monthly or yearly is still materialized, but its nextOccurrence is left
unchanged, so any later pass whose today is the same or later emits it
again. -/
theorem C10_unknown_recurrence_reemits (today : Date) (r : RecExp)
    (hrec : r.is_recurring = true)
    (hdue : r.next_occurrence.ble today = true)
    (hend : r.recurrence_end_date = none ∨
      ∃ e, r.recurrence_end_date = some e ∧ r.next_occurrence.ble e = true)
    (hw : r.recurrence_type ≠ "weekly") (hm : r.recurrence_type ≠ "monthly")
    (hy : r.recurrence_type ≠ "yearly") :
    stepRecord today r = ([mkEmission r], r) ∧
    ∀ today', today.ble today' = true →
      stepRecord today' r = ([mkEmission r], r) := by
  have hadv : advance r.recurrence_type r.next_occurrence = none := by
    simp [advance, hw, hm, hy]
  have key : ∀ t : Date, r.next_occurrence.ble t = true →
      stepRecord t r = ([mkEmission r], r) := by
    intro t ht
    rcases hend with h | ⟨e, he, hle⟩
    · simp [stepRecord, hrec, ht, h, hadv]
    · simp [stepRecord, hrec, ht, he, hadv, Date.blt, hle]
  exact ⟨key today hdue, fun today' h' => key today' (Date.ble_trans hdue h')⟩

/-- Witness for C10: an unrecognized `daily` record is emitted unchanged
on 2026-02-20 and again on 2026-03-01. -/
def rcDaily : RecExp :=
  ⟨4, "coffee", 5, "daily", ⟨2026, 2, 10⟩, none, "", true⟩

theorem C10_witness :
    stepRecord ⟨2026, 2, 20⟩ rcDaily = ([mkEmission rcDaily], rcDaily) ∧
    stepRecord ⟨2026, 3, 1⟩ rcDaily = ([mkEmission rcDaily], rcDaily) := by
  have h := C10_unknown_recurrence_reemits ⟨2026, 2, 20⟩ rcDaily rfl
    (by decide) (Or.inl rfl) (by decide) (by decide) (by decide)
  exact ⟨h.1, h.2 ⟨2026, 3, 1⟩ (by decide)⟩
